import Mathlib

/-!
Shallow embedding of the connection engine of `src/ib_client.rs` (IBClient).
The reader/router task (ib_client.rs lines 130-326) is modelled as a step
function over an explicit `RouterState`; the caller-facing one-shot and
streaming channels are modelled by an `alive` flag on each sender (the flag
is `false` once the receiving half has been dropped) together with explicit
logs of successfully delivered payloads.  Payload types from modules that
are not part of the two source files (ib_contract.rs, order.rs, ticker.rs,
bars.rs) are abstracted to `Nat` fields; none of the routing decisions in
ib_client.rs inspects those payloads.  A step returns `none` exactly where
the Rust task would panic (an `unwrap` on a failed send).
-/

namespace RustIbApi

abbrev ReqId := Int

abbrev ExecId := Nat

/-- Pointwise update of a finite map modelled as a function into `Option`.
`mapUpd m k none` is `HashMap::remove`, `mapUpd m k (some v)` is
`HashMap::insert`. -/
def mapUpd {κ α : Type} [DecidableEq κ] (m : κ → Option α) (k : κ) (v : Option α) :
    κ → Option α :=
  fun j => if j = k then v else m j

/-- Tick kinds from ib_enums.rs that the router dispatches on; every other
kind falls into the wildcard arm and is represented by `OtherKind`. -/
inductive TickType
  | Bid | DelayedBid | Ask | DelayedAsk | Last | DelayedLast
  | BidSize | DelayedBidSize | AskSize | DelayedAskSize
  | LastSize | DelayedLastSize | ShortableShares | Shortable
  | OtherKind
  deriving DecidableEq, Repr

/-- An order as far as the router reads it: only `order.order_id` is
inspected (ib_client.rs line 199); the rest is an opaque payload. -/
structure Order where
  order_id : ReqId
  payload : Nat
  deriving DecidableEq, Repr

/-- An OrderStatus frame payload: the router reads `status.order_id`. -/
structure OrderStatus where
  order_id : ReqId
  payload : Nat
  deriving DecidableEq, Repr

/-- An Execution frame payload: the router reads `order_id` and `exec_id`. -/
structure Execution where
  order_id : ReqId
  exec_id : ExecId
  payload : Nat
  deriving DecidableEq, Repr

/-- A CommissionReport frame payload: the router reads `exec_id`. -/
structure CommissionReport where
  exec_id : ExecId
  payload : Nat
  deriving DecidableEq, Repr

/-- The inbound frame variants of `IBFrame` (frame.rs) that reach the router
match in ib_client.rs lines 159-324.  Account frames and unknown frames all
take the trivial arm and are collapsed into `Other`; `OrderID` is the
unsolicited NextValidOrderID. -/
inductive IBFrame
  | OrderID (id : Int)
  | ContractDetails (req_id : ReqId) (contract_details : Nat)
  | ContractDetailsEnd (req_id : ReqId)
  | OpenOrder (order : Order) (order_state : Nat)
  | OrderStatus (status : OrderStatus)
  | Execution (execution : Execution)
  | CommissionReport (report : CommissionReport)
  | PriceTick (id : ReqId) (kind : TickType) (price : Int) (size : Option Int)
  | SizeTick (id : ReqId) (kind : TickType) (size : Int)
  | GenericTick (id : ReqId) (kind : TickType) (val : Int)
  | Bars (id : ReqId) (data : Nat)
  | Error (id : ReqId) (code : Int) (msg : Nat)
  | Other
  deriving DecidableEq, Repr

/-- The `Response` enum delivered on a pending request's one-shot
(ib_client.rs lines 36-42).  Receiver-half handles (OrderTracker, Ticker)
are identified by the ID they were created under. -/
inductive Response
  | ContractDetails (details : List Nat)
  | Order (order_id : ReqId)
  | Ticker (req_id : ReqId)
  | Bars (data : Nat)
  | Empty
  deriving DecidableEq, Repr

/-- A pending request's one-shot sender; `alive` is `false` when the façade
side has dropped the receiving half, so that `send` would fail. -/
structure PendingSender where
  alive : Bool
  deriving DecidableEq, Repr

/-- The sender half of an OrderTracker (order.rs, absent from src/): three
latest-value watch cells plus two append queues.  Dropping the caller's
receiver struct drops every receiving half at once, so one `alive` flag
covers all five channels. -/
structure OrderTrackerSender where
  alive : Bool
  order_latest : Nat
  order_state_latest : Nat
  order_status_latest : Option OrderStatus
  executions : List Execution
  commission_reports : List CommissionReport
  deriving DecidableEq, Repr

/-- OrderTracker::new(order, order_state): the two watch cells start at the
given values; `alive` records whether the caller actually received the
reader half. -/
def OrderTrackerSender.make (order : Order) (order_state : Nat) (alive : Bool) :
    OrderTrackerSender :=
  { alive := alive, order_latest := order.payload, order_state_latest := order_state,
    order_status_latest := none, executions := [], commission_reports := [] }

/-- The sender half of a Ticker (ticker.rs, absent from src/): latest-value
cells, each empty until its first update.  One `alive` flag covers the
caller's receiver struct.  The ShortAvailability conversion applied to
generic Shortable ticks is abstracted to the raw value. -/
structure TickerSender where
  alive : Bool
  bid : Option Int
  ask : Option Int
  last : Option Int
  bid_size : Option Int
  ask_size : Option Int
  last_size : Option Int
  shortable_shares : Option Int
  short_availability : Option Int
  deriving DecidableEq, Repr

/-- Ticker::new() with the given receiver liveness. -/
def TickerSender.make (alive : Bool) : TickerSender :=
  { alive := alive, bid := none, ask := none, last := none, bid_size := none,
    ask_size := none, last_size := none, shortable_shares := none,
    short_availability := none }

/-- All routing state owned by the reader task (ib_client.rs lines 131-141),
plus logs of what was successfully delivered on one-shots.  `requests` is
the `pending_by_req_id` map, `order_id_reqs` the FIFO of NextValidOrderID
one-shots (each entry its receiver's liveness). -/
structure RouterState where
  requests : ReqId → Option PendingSender
  contract_details_cache : ReqId → Option (List Nat)
  executions_cache : ExecId → Option ReqId
  order_trackers : ReqId → Option OrderTrackerSender
  tickers : ReqId → Option TickerSender
  order_id_reqs : List Bool
  delivered : List (ReqId × Response)
  delivered_order_ids : List Int

/-- Router state at connect time: every table empty. -/
def initRouterState : RouterState :=
  { requests := fun _ => none, contract_details_cache := fun _ => none,
    executions_cache := fun _ => none, order_trackers := fun _ => none,
    tickers := fun _ => none, order_id_reqs := [], delivered := [],
    delivered_order_ids := [] }

/-- The PriceTick publish block (ib_client.rs lines 245-266) acting on the
`tickers` map: a bid/ask/last kind updates the price cell then the size
cell; a failed send (dead receiver) removes the ticker; any other kind does
nothing. -/
def priceTickPublish (tickers : ReqId → Option TickerSender) (id : ReqId)
    (kind : TickType) (price : Int) (size : Option Int) :
    ReqId → Option TickerSender :=
  match tickers id with
  | none => tickers
  | some t =>
    match kind with
    | .Bid | .DelayedBid =>
        if t.alive then mapUpd tickers id (some { t with bid := some price, bid_size := size })
        else mapUpd tickers id none
    | .Ask | .DelayedAsk =>
        if t.alive then mapUpd tickers id (some { t with ask := some price, ask_size := size })
        else mapUpd tickers id none
    | .Last | .DelayedLast =>
        if t.alive then mapUpd tickers id (some { t with last := some price, last_size := size })
        else mapUpd tickers id none
    | _ => tickers

/-- The SizeTick publish block (ib_client.rs lines 274-296). -/
def sizeTickPublish (tickers : ReqId → Option TickerSender) (id : ReqId)
    (kind : TickType) (size : Int) : ReqId → Option TickerSender :=
  match tickers id with
  | none => tickers
  | some t =>
    match kind with
    | .BidSize | .DelayedBidSize =>
        if t.alive then mapUpd tickers id (some { t with bid_size := some size })
        else mapUpd tickers id none
    | .AskSize | .DelayedAskSize =>
        if t.alive then mapUpd tickers id (some { t with ask_size := some size })
        else mapUpd tickers id none
    | .LastSize | .DelayedLastSize =>
        if t.alive then mapUpd tickers id (some { t with last_size := some size })
        else mapUpd tickers id none
    | .ShortableShares =>
        if t.alive then mapUpd tickers id (some { t with shortable_shares := some size })
        else mapUpd tickers id none
    | _ => tickers

/-- The GenericTick publish block (ib_client.rs lines 304-313). -/
def genericTickPublish (tickers : ReqId → Option TickerSender) (id : ReqId)
    (kind : TickType) (val : Int) : ReqId → Option TickerSender :=
  match tickers id with
  | none => tickers
  | some t =>
    match kind with
    | .Shortable =>
        if t.alive then mapUpd tickers id (some { t with short_availability := some val })
        else mapUpd tickers id none
    | _ => tickers

/-- One frame through the router match (ib_client.rs lines 159-324).
`none` models a reader-task panic: the `unwrap` on the NextValidOrderID
one-shot send (line 177) and on `executions_tx.send` (line 218). -/
def stepFrame (s : RouterState) (f : IBFrame) : Option RouterState :=
  match f with
  | .OrderID id =>
      match s.order_id_reqs with
      | [] => some s
      | alive :: rest =>
          if alive then
            some { s with
              order_id_reqs := rest,
              delivered_order_ids := (s.delivered_order_ids ++ [id]) }
          else none
  | .ContractDetails req_id contract_details =>
      some { s with contract_details_cache :=
        (mapUpd s.contract_details_cache req_id
          (some (((s.contract_details_cache req_id).getD []) ++ [contract_details]))) }
  | .ContractDetailsEnd req_id =>
      match s.requests req_id with
      | some sender =>
          let resp : Response :=
            match s.contract_details_cache req_id with
            | some details => .ContractDetails details
            | none => .Empty
          some { s with
            requests := (mapUpd s.requests req_id none),
            contract_details_cache := (mapUpd s.contract_details_cache req_id none),
            delivered :=
              (if sender.alive then s.delivered ++ [(req_id, resp)] else s.delivered) }
      | none => some s
  | .OpenOrder order order_state =>
      match s.requests order.order_id with
      | some sender =>
          some { s with
            requests := (mapUpd s.requests order.order_id none),
            order_trackers := (mapUpd s.order_trackers order.order_id
              (some (OrderTrackerSender.make order order_state sender.alive))),
            delivered :=
              (if sender.alive then
                s.delivered ++ [(order.order_id, .Order order.order_id)]
              else s.delivered) }
      | none =>
          match s.order_trackers order.order_id with
          | some tracker =>
              let tracker' :=
                if tracker.alive then
                  { tracker with order_latest := order.payload,
                                 order_state_latest := order_state }
                else tracker
              some { s with order_trackers :=
                (mapUpd s.order_trackers order.order_id (some tracker')) }
          | none => some s
  | .OrderStatus status =>
      match s.order_trackers status.order_id with
      | some tracker =>
          if tracker.alive then
            some { s with order_trackers := (mapUpd s.order_trackers status.order_id
              (some { tracker with order_status_latest := some status })) }
          else some s
      | none => some s
  | .Execution execution =>
      match s.order_trackers execution.order_id with
      | some tracker =>
          if tracker.alive then
            some { s with
              executions_cache :=
                (mapUpd s.executions_cache execution.exec_id (some execution.order_id)),
              order_trackers := (mapUpd s.order_trackers execution.order_id
                (some { tracker with executions := tracker.executions ++ [execution] })) }
          else none
      | none => some s
  | .CommissionReport report =>
      match s.executions_cache report.exec_id with
      | some order_id =>
          let s1 := { s with executions_cache :=
            (mapUpd s.executions_cache report.exec_id none) }
          match s1.order_trackers order_id with
          | some tracker =>
              if tracker.alive then
                some { s1 with order_trackers := (mapUpd s1.order_trackers order_id
                  (some { tracker with
                    commission_reports := tracker.commission_reports ++ [report] })) }
              else some s1
          | none => some s1
      | none => some s
  | .PriceTick id kind price size =>
      match s.requests id with
      | some req =>
          let s1 := { s with
            requests := (mapUpd s.requests id none),
            tickers := (mapUpd s.tickers id (some (TickerSender.make req.alive))),
            delivered :=
              (if req.alive then s.delivered ++ [(id, .Ticker id)] else s.delivered) }
          if req.alive then
            some { s1 with tickers := (priceTickPublish s1.tickers id kind price size) }
          else some s1
      | none => some { s with tickers := (priceTickPublish s.tickers id kind price size) }
  | .SizeTick id kind size =>
      match s.requests id with
      | some req =>
          let s1 := { s with
            requests := (mapUpd s.requests id none),
            tickers := (mapUpd s.tickers id (some (TickerSender.make req.alive))),
            delivered :=
              (if req.alive then s.delivered ++ [(id, .Ticker id)] else s.delivered) }
          if req.alive then
            some { s1 with tickers := (sizeTickPublish s1.tickers id kind size) }
          else some s1
      | none => some { s with tickers := (sizeTickPublish s.tickers id kind size) }
  | .GenericTick id kind val =>
      match s.requests id with
      | some req =>
          let s1 := { s with
            requests := (mapUpd s.requests id none),
            tickers := (mapUpd s.tickers id (some (TickerSender.make req.alive))),
            delivered :=
              (if req.alive then s.delivered ++ [(id, .Ticker id)] else s.delivered) }
          if req.alive then
            some { s1 with tickers := (genericTickPublish s1.tickers id kind val) }
          else some s1
      | none => some { s with tickers := (genericTickPublish s.tickers id kind val) }
  | .Bars id data =>
      match s.requests id with
      | some req =>
          some { s with
            requests := (mapUpd s.requests id none),
            delivered :=
              (if req.alive then s.delivered ++ [(id, .Bars data)] else s.delivered) }
      | none => some s
  | .Error _ _ _ => some s
  | .Other => some s


/-- Inputs to the router: a registration drained from the crossbeam channel
(`Request::OrderID` or `Request::ReqWithID`, ib_client.rs lines 146-156), an
inbound frame, or the environment action of the caller dropping a streaming
receiver handle.  One-shot liveness is fixed at registration: it stands for
whether the receiver will still be held when the single send happens. -/
inductive RMsg
  | regOrderID (alive : Bool)
  | regWithID (id : ReqId) (alive : Bool)
  | frame (f : IBFrame)
  | dropTicker (id : ReqId)
  | dropTracker (id : ReqId)
  deriving DecidableEq, Repr

/-- One router input. -/
def step (s : RouterState) (m : RMsg) : Option RouterState :=
  match m with
  | .regOrderID alive => some { s with order_id_reqs := s.order_id_reqs ++ [alive] }
  | .regWithID id alive =>
      some { s with requests := mapUpd s.requests id (some { alive := alive }) }
  | .frame f => stepFrame s f
  | .dropTicker id =>
      match s.tickers id with
      | some t => some { s with tickers := mapUpd s.tickers id (some { t with alive := false }) }
      | none => some s
  | .dropTracker id =>
      match s.order_trackers id with
      | some t => some { s with order_trackers :=
          (mapUpd s.order_trackers id (some { t with alive := false })) }
      | none => some s

/-- A run of the router over a list of inputs; `none` once any step panics. -/
def run (s : RouterState) : List RMsg → Option RouterState
  | [] => some s
  | m :: rest =>
      match step s m with
      | some s' => run s' rest
      | none => none

/-- The result of a façade operation's `rep_rx.await` followed by the
response narrowing match.  `responseError` is `Err(Box::new(ResponseError))`
("Invalid response type!"), `recvError` the one-shot sender being dropped
unfired. -/
inductive AwaitResult (α : Type)
  | ok (value : α)
  | responseError
  | recvError
  deriving DecidableEq, Repr

/-- The narrowing match of req_contract_details (ib_client.rs lines
391-400): only the `Response::ContractDetails` variant yields `Ok`; every
other delivered variant — `Response::Empty` included — becomes the
ResponseError. -/
def req_contract_details_await (r : Option Response) : AwaitResult (List Nat) :=
  match r with
  | some (.ContractDetails contracts) => .ok contracts
  | some _ => .responseError
  | none => .recvError

/-- A null field terminator (`"\0"`). -/
def nullByte : String := "\x00"

/-- An empty field placeholder for opaque encoded sub-payloads. -/
def emptyField : String := ""

/-- Scalar field encoder: textual value plus one null (spec section 4.1,
ib_message.rs is absent from src/). -/
def encodeInt (n : Int) : String := toString n ++ nullByte

/-- Boolean field encoder. -/
def encodeBool (b : Bool) : String := (if b then "1" else "0") ++ nullByte

/-- A generic tick kind (ib_enums.rs, absent from src/), identified by its
numeric protocol code. -/
structure GenericTickType where
  code : Nat
  deriving DecidableEq, Repr

/-- Modelled from the spec: ib_enums.rs is not under src/.  The tick-list
items are joined by commas by ib_client.rs itself, so the item encoder is
the bare numeric token. -/
def GenericTickType.encode (t : GenericTickType) : String := toString t.code

/-- Modelled from the spec: Outgoing::encode (ib_enums.rs, absent from src/)
emits the fixed message-kind integer of each outbound request as one
null-terminated field (spec sections 4.1 and 6). -/
def Outgoing.ReqContractData : String := encodeInt 9

/-- Modelled from the spec: message-kind head of PlaceOrder. -/
def Outgoing.PlaceOrder : String := encodeInt 3

/-- Modelled from the spec: message-kind head of ReqMktData. -/
def Outgoing.ReqMktData : String := encodeInt 1

/-- Modelled from the spec: message-kind head of ReqHistoricalData. -/
def Outgoing.ReqHistoricalData : String := encodeInt 20

/-- The generic-tick-list portion of the ReqMktData message (ib_client.rs
lines 433-443): for `Some(add_data)` the loop `for i in 0..add_data.len()-1`
emits comma-separated tokens and the last item follows without a comma; the
closing bare null of line 443 is emitted in every non-panicking case.
`none` models the panic: when `add_data.len() == 0` the loop bound
`add_data.len()-1` underflows `usize` (debug: overflow panic; release: the
wrapped bound makes `add_data[0]` an out-of-bounds index). -/
def encodeGenericTickList (additional_data : Option (List GenericTickType)) :
    Option String :=
  match additional_data with
  | none => some nullByte
  | some add_data =>
      if add_data.length = 0 then none
      else
        some (String.join ((List.range (add_data.length - 1)).map
                (fun i => (add_data.getD i { code := 0 }).encode ++ ","))
              ++ (match add_data.getLast? with
                  | some gen_tick => gen_tick.encode
                  | none => emptyField)
              ++ nullByte)

/-- The façade-side counters of IBClient (ib_client.rs lines 65-66). -/
structure IBClientState where
  next_req_id : Int
  next_order_id : Int
  deriving DecidableEq, Repr

/-- get_next_req_id (ib_client.rs lines 372-375): pre-increment, then use. -/
def get_next_req_id (c : IBClientState) : Int × IBClientState :=
  (c.next_req_id + 1, { c with next_req_id := c.next_req_id + 1 })

/-- get_next_order_id (ib_client.rs lines 377-380): pre-increment, then
use, so the stored value itself is never returned. -/
def get_next_order_id (c : IBClientState) : Int × IBClientState :=
  (c.next_order_id + 1, { c with next_order_id := c.next_order_id + 1 })

/-- Counter state at the end of connect (ib_client.rs lines 328-356): both
counters start at 0 and the server's unsolicited NextValidOrderID value
overwrites next_order_id before connect returns. -/
def connectClientState (server_order_id : Int) : IBClientState :=
  { next_req_id := 0, next_order_id := server_order_id }

/-- An observable channel action of a façade operation: the registration
enqueued on the crossbeam `req_tx`, or the encoded request bytes enqueued on
the `write_tx` queue. -/
inductive FEvent
  | register (id : ReqId)
  | sendBytes (id : ReqId) (msg : String)
  deriving DecidableEq, Repr

/-- Recognizer for registration events. -/
def FEvent.isRegister : FEvent → Bool
  | .register _ => true
  | _ => false

/-- Recognizer for write-queue events. -/
def FEvent.isSendBytes : FEvent → Bool
  | .sendBytes _ _ => true
  | _ => false

/-- The outcome of a façade send phase: the allocated ID, the channel
actions in program order, and the updated counters. -/
structure SendOutcome where
  id : ReqId
  events : List FEvent
  state : IBClientState
  deriving DecidableEq, Repr

/-- req_contract_details up to the await (ib_client.rs lines 382-390).
`contract_fields` stands for `contract.encode()` (ib_contract.rs, absent
from src/); `reg_ok` is whether the crossbeam send succeeds (it fails only
when the router side has disconnected).  The `?` on `req_tx.send` aborts
the operation before anything is written when registration fails. -/
def req_contract_details_send (c : IBClientState) (contract_fields : String)
    (reg_ok : Bool) : SendOutcome :=
  let (id, c1) := get_next_req_id c
  let msg := Outgoing.ReqContractData ++ encodeInt 8 ++ encodeInt id ++ contract_fields
  if reg_ok then
    { id := id, events := [.register id, .sendBytes id msg], state := c1 }
  else
    { id := id, events := [], state := c1 }

/-- place_order up to the await (ib_client.rs lines 403-411); the `?` on
`req_tx.send` aborts before the write when registration fails. -/
def place_order_send (c : IBClientState) (order_fields : String)
    (reg_ok : Bool) : SendOutcome :=
  let (id, c1) := get_next_order_id c
  let msg := Outgoing.PlaceOrder ++ encodeInt id ++ order_fields
  if reg_ok then
    { id := id, events := [.register id, .sendBytes id msg], state := c1 }
  else
    { id := id, events := [], state := c1 }

/-- req_market_data up to the await (ib_client.rs lines 424-450).  The
message is assembled — version "11", the ID, `contract.encode_for_ticker()`,
a "0" field, the generic-tick list, snapshot, regulatory, one closing null —
before any channel is touched, so the tick-list panic (`none`) happens
regardless of `reg_ok`; the `?` on `req_tx.send` aborts before the write. -/
def req_market_data_send (c : IBClientState) (contract_fields : String)
    (snapshot : Bool) (regulatory : Bool)
    (additional_data : Option (List GenericTickType)) (reg_ok : Bool) :
    Option SendOutcome :=
  let (id, c1) := get_next_req_id c
  match encodeGenericTickList additional_data with
  | none => none
  | some tick_list =>
      let msg := Outgoing.ReqMktData ++ "11" ++ nullByte ++ encodeInt id
        ++ contract_fields ++ "0" ++ nullByte ++ tick_list
        ++ encodeBool snapshot ++ encodeBool regulatory ++ nullByte
      if reg_ok then
        some { id := id, events := [.register id, .sendBytes id msg], state := c1 }
      else
        some { id := id, events := [], state := c1 }

/-- req_historical_data up to the await (ib_client.rs lines 463-480).  The
`req_tx.send` on line 479 carries no `?` and its Result is dropped, so the
encoded bytes are written even when the registration send failed. -/
def req_historical_data_send (c : IBClientState) (contract_fields : String)
    (end_date_time : String) (duration : String) (bar_period : String)
    (what_to_show : String) (use_rth : Bool) (reg_ok : Bool) : SendOutcome :=
  let (id, c1) := get_next_req_id c
  let msg := Outgoing.ReqHistoricalData ++ encodeInt id ++ contract_fields
    ++ end_date_time ++ bar_period ++ duration ++ encodeBool use_rth
    ++ what_to_show ++ "1" ++ nullByte ++ "0" ++ nullByte ++ nullByte
  if reg_ok then
    { id := id, events := [.register id, .sendBytes id msg], state := c1 }
  else
    { id := id, events := [.sendBytes id msg], state := c1 }

/-- Scans an event list and checks that every write-queue event is preceded
by at least one registration event ("registration before send"). -/
def sendsCovered (seen_reg : Bool) : List FEvent → Bool
  | [] => true
  | FEvent.register _ :: rest => sendsCovered true rest
  | FEvent.sendBytes _ _ :: rest => seen_reg && sendsCovered seen_reg rest

/-- Repeated place_order calls: the list of order IDs they encode. -/
def placeOrders (c : IBClientState) (order_fields : String) :
    Nat → List ReqId × IBClientState
  | 0 => ([], c)
  | k + 1 =>
      let o := place_order_send c order_fields true
      let (ids, c') := placeOrders o.state order_fields k
      (o.id :: ids, c')

/-- The list of `k` consecutive integers from `start`. -/
def idsFrom (start : Int) : Nat → List Int
  | 0 => []
  | k + 1 => start :: idsFrom (start + 1) k

/-- Tick kinds that the PriceTick publish block actually delivers (the
bid/ask/last arms of ib_client.rs lines 246-263); every other kind takes
the `_ => true` arm, which neither publishes nor evicts. -/
def priceKindHandled : TickType → Bool
  | .Bid | .DelayedBid | .Ask | .DelayedAsk | .Last | .DelayedLast => true
  | _ => false

/-- A router input that makes the router build a fresh Ticker under `i` in
state `s`: a tick frame for `i` while a pending request is registered under
`i` (the `requests.remove_entry` branches of the three tick arms). -/
def createsTicker (i : ReqId) (s : RouterState) (m : RMsg) : Bool :=
  match m with
  | .frame (.PriceTick id _ _ _) => id == i && (s.requests i).isSome
  | .frame (.SizeTick id _ _) => id == i && (s.requests i).isSome
  | .frame (.GenericTick id _ _) => id == i && (s.requests i).isSome
  | _ => false

/-- A router input that makes the router build a fresh OrderTracker under
`i`: an OpenOrder frame for `i` while a pending request is registered. -/
def createsTracker (i : ReqId) (s : RouterState) (m : RMsg) : Bool :=
  match m with
  | .frame (.OpenOrder order _) => order.order_id == i && (s.requests i).isSome
  | _ => false

/-- A router input that creates either kind of sink under `i`. -/
def createsSink (i : ReqId) (s : RouterState) (m : RMsg) : Bool :=
  createsTicker i s m || createsTracker i s m

/-- Counts, along a run, the inputs satisfying `p` in the state they are
processed in; the count stops where the run panics. -/
def countSteps (p : RouterState → RMsg → Bool) (s : RouterState) :
    List RMsg → Nat
  | [] => 0
  | m :: rest =>
      (if p s m then 1 else 0) +
      (match step s m with
       | some s' => countSteps p s' rest
       | none => 0)

/-- Registration messages carrying ID `i`. -/
def registersFor (i : ReqId) (m : RMsg) : Bool :=
  match m with
  | .regWithID id _ => id == i
  | _ => false

/-- How many registrations for `i` a trace carries. -/
def countRegistrations (i : ReqId) (ms : List RMsg) : Nat :=
  (ms.filter (registersFor i)).length

/-- Zero or one: whether a pending request is registered under `i`. -/
def pendCount (s : RouterState) (i : ReqId) : Nat :=
  if (s.requests i).isSome then 1 else 0

/-- Example state: one live pending request under ID 1. -/
def statePending1 : RouterState :=
  { initRouterState with requests :=
      (mapUpd initRouterState.requests 1 (some { alive := true })) }

/-- Example state: a cached ContractDetails batch under ID 1, no pending
request. -/
def stateCacheOnly1 : RouterState :=
  { initRouterState with contract_details_cache :=
      (mapUpd initRouterState.contract_details_cache 1 (some [7])) }

/-- Example state: one pending request under ID 1 whose one-shot receiver
is already dropped. -/
def stateDeadPending1 : RouterState :=
  { initRouterState with requests :=
      (mapUpd initRouterState.requests 1 (some { alive := false })) }

/-- Example state: a dead ticker under ID 1 and a dead order tracker under
ID 2. -/
def stateDeadHandles : RouterState :=
  { initRouterState with
    tickers := (mapUpd initRouterState.tickers 1 (some (TickerSender.make false))),
    order_trackers := (mapUpd initRouterState.order_trackers 2
      (some (OrderTrackerSender.make { order_id := 2, payload := 0 } 0 false))) }

/-- Example state: a live order tracker under ID 10. -/
def stateTracker10 : RouterState :=
  { initRouterState with order_trackers :=
      (mapUpd initRouterState.order_trackers 10
        (some (OrderTrackerSender.make { order_id := 10, payload := 0 } 0 true))) }

/-- Example trace: one registration under ID 1 followed by three tick
frames for ID 1 (the first creates the ticker, the others update it). -/
def traceTicks1 : List RMsg :=
  [RMsg.regWithID 1 true,
   RMsg.frame (IBFrame.PriceTick 1 TickType.Bid 5 none),
   RMsg.frame (IBFrame.PriceTick 1 TickType.Ask 6 none),
   RMsg.frame (IBFrame.SizeTick 1 TickType.BidSize 7)]

/-! Theorems.  Claim C1-C10 identifiers refer to the frozen claim list for
this repository. -/

/-- C1 counterexample: register a live pending contract-details request
under ID 1 and let its ContractDetailsEnd arrive with an empty accumulator.
The router delivers `Response::Empty`, and the narrowing match of
req_contract_details turns that into the ResponseError — the caller gets an
error, not the empty batch the claim states. -/
theorem empty_contract_details_batch_returns_error_cex :
    (run initRouterState
        [RMsg.regWithID 1 true, RMsg.frame (IBFrame.ContractDetailsEnd 1)]).map
      (fun s => s.delivered) = some [(1, Response.Empty)] ∧
    req_contract_details_await (some Response.Empty) = AwaitResult.responseError ∧
    AwaitResult.responseError ≠ AwaitResult.ok ([] : List Nat) := by
  refine ⟨rfl, rfl, ?_⟩
  decide

/-- C1 amended: when the ContractDetailsEnd for a registered live request
arrives while the accumulator for its ID is empty, the router removes the
pending entry and delivers the `Response::Empty` variant on the one-shot,
and req_contract_details narrows that variant to the ResponseError
("Invalid response type!"): the caller receives an error, not an empty
vector. -/
theorem empty_contract_details_batch_delivers_empty_response
    (s : RouterState) (i : ReqId) (p : PendingSender)
    (hp : s.requests i = some p) (halive : p.alive = true)
    (hcache : s.contract_details_cache i = none) :
    ∃ s', stepFrame s (IBFrame.ContractDetailsEnd i) = some s' ∧
      s'.delivered = s.delivered ++ [(i, Response.Empty)] ∧
      s'.requests i = none ∧
      s'.contract_details_cache i = none ∧
      req_contract_details_await (some Response.Empty) = AwaitResult.responseError := by
  refine ⟨{ s with
      requests := (mapUpd s.requests i none),
      contract_details_cache := (mapUpd s.contract_details_cache i none),
      delivered := s.delivered ++ [(i, Response.Empty)] }, ?_, rfl, ?_, ?_, rfl⟩
  · simp only [stepFrame, hp, hcache, halive, if_true]
  · simp [mapUpd]
  · simp [mapUpd]

/-- C1 witness: the amended statement at the concrete one-request state. -/
theorem empty_contract_details_batch_delivers_empty_response_w :
    ∃ s', stepFrame statePending1 (IBFrame.ContractDetailsEnd 1) = some s' ∧
      s'.delivered = statePending1.delivered ++ [(1, Response.Empty)] ∧
      s'.requests 1 = none ∧
      s'.contract_details_cache 1 = none ∧
      req_contract_details_await (some Response.Empty) = AwaitResult.responseError :=
  empty_contract_details_batch_delivers_empty_response statePending1 1
    { alive := true } (by decide) rfl rfl

/-- C2 counterexample: with a live pending request registered under ID 1,
an inbound Error frame for ID 1 leaves the pending request in place and
completes no one-shot — the router does not fail the request. -/
theorem error_frame_pending_not_failed_cex :
    (run initRouterState [RMsg.regWithID 1 true, RMsg.frame (IBFrame.Error 1 200 0)]).map
      (fun s => ((s.requests 1).isSome, s.delivered)) = some (true, []) := by
  decide

/-- C2 amended: the Error arm of the router match (ib_client.rs lines
320-322) is empty, so every inbound Error frame is ignored outright: the
router state — pending requests, trackers, tickers, caches, delivery logs —
is left exactly as it was, and nothing is logged or propagated. -/
theorem error_frame_ignored (s : RouterState) (id : ReqId) (code : Int) (msg : Nat) :
    stepFrame s (IBFrame.Error id code msg) = some s := rfl

/-- C3 counterexample: a ContractDetails frame for ID 5 arrives with no
pending request, then its ContractDetailsEnd.  The end frame takes the
`None` arm, which only logs, so the accumulator for ID 5 still holds the
batch afterwards — the cache is not drained. -/
theorem contract_details_cache_retained_cex :
    (run initRouterState [RMsg.frame (IBFrame.ContractDetails 5 7),
        RMsg.frame (IBFrame.ContractDetailsEnd 5)]).map
      (fun s => s.contract_details_cache 5) = some (some [7]) := by
  decide

/-- C3 amended: ContractDetailsEnd for ID `i` drains the accumulator and
removes the pending entry only when a pending request is registered under
`i`; when none is, the router only logs and the state — any cached batch
under `i` included — is unchanged. -/
theorem contract_details_end_drains_only_with_pending
    (s s2 : RouterState) (i : ReqId) (p : PendingSender)
    (hp : s.requests i = some p) (h2 : s2.requests i = none) :
    (∃ s', stepFrame s (IBFrame.ContractDetailsEnd i) = some s' ∧
      s'.contract_details_cache i = none ∧ s'.requests i = none) ∧
    stepFrame s2 (IBFrame.ContractDetailsEnd i) = some s2 := by
  constructor
  · refine ⟨{ s with
        requests := (mapUpd s.requests i none),
        contract_details_cache := (mapUpd s.contract_details_cache i none),
        delivered :=
          (if p.alive then
            s.delivered ++
              [(i, match s.contract_details_cache i with
                   | some details => Response.ContractDetails details
                   | none => Response.Empty)]
          else s.delivered) }, ?_, ?_, ?_⟩
    · simp only [stepFrame, hp]
    · simp [mapUpd]
    · simp [mapUpd]
  · simp only [stepFrame, h2]

/-- C3 witness: the amended statement at a concrete pending state and a
concrete cache-only state. -/
theorem contract_details_end_drains_only_with_pending_w :
    (∃ s', stepFrame statePending1 (IBFrame.ContractDetailsEnd 1) = some s' ∧
      s'.contract_details_cache 1 = none ∧ s'.requests 1 = none) ∧
    stepFrame stateCacheOnly1 (IBFrame.ContractDetailsEnd 1) = some stateCacheOnly1 :=
  contract_details_end_drains_only_with_pending statePending1 stateCacheOnly1 1
    { alive := true } (by decide) (by decide)

/-- C4 counterexample: a pending request under ID 3 whose one-shot receiver
is already dropped gets its first PriceTick; the router drops the payload
(`continue`) but the just-created Ticker sender stays in `tickers`.  Same
for an OpenOrder under ID 7: the OrderTracker sender stays in
`order_trackers`.  The claim says both subscriptions are evicted. -/
theorem dead_oneshot_subscription_retained_cex :
    (run initRouterState [RMsg.regWithID 3 false,
        RMsg.frame (IBFrame.PriceTick 3 TickType.Bid 100 (some 1))]).map
      (fun s => ((s.tickers 3).isSome, s.delivered)) = some (true, []) ∧
    (run initRouterState [RMsg.regWithID 7 false,
        RMsg.frame (IBFrame.OpenOrder { order_id := 7, payload := 0 } 0)]).map
      (fun s => ((s.order_trackers 7).isSome, s.delivered)) = some (true, []) := by
  exact ⟨by decide, by decide⟩

/-- C4 amended: when the first correlated reply for a streaming request
finds the awaiting one-shot receiver dropped, the router drops the payload
(nothing is delivered) and removes the pending entry, but the just-created
subscription is NOT evicted: the fresh Ticker sender (tick case) or
OrderTracker sender (OpenOrder case) remains in the routing table, with its
receiver half dead. -/
theorem dead_oneshot_drops_payload_keeps_subscription
    (s : RouterState) (i : ReqId) (kind : TickType) (price : Int)
    (size : Option Int) (order : Order) (order_state : Nat)
    (hp : s.requests i = some { alive := false }) (ho : order.order_id = i) :
    (∃ s', stepFrame s (IBFrame.PriceTick i kind price size) = some s' ∧
      s'.tickers i = some (TickerSender.make false) ∧
      s'.delivered = s.delivered ∧ s'.requests i = none) ∧
    (∃ s2, stepFrame s (IBFrame.OpenOrder order order_state) = some s2 ∧
      s2.order_trackers i = some (OrderTrackerSender.make order order_state false) ∧
      s2.delivered = s.delivered ∧ s2.requests i = none) := by
  constructor
  · refine ⟨{ s with
        requests := (mapUpd s.requests i none),
        tickers := (mapUpd s.tickers i (some (TickerSender.make false))),
        delivered := s.delivered }, ?_, ?_, rfl, ?_⟩
    · simp [stepFrame, hp]
    · simp [mapUpd]
    · simp [mapUpd]
  · have hp' : s.requests order.order_id = some { alive := false } := by
      rw [ho]; exact hp
    refine ⟨{ s with
        requests := (mapUpd s.requests order.order_id none),
        order_trackers := (mapUpd s.order_trackers order.order_id
          (some (OrderTrackerSender.make order order_state false))),
        delivered := s.delivered }, ?_, ?_, rfl, ?_⟩
    · simp [stepFrame, hp']
    · simp [ho, mapUpd]
    · simp [ho, mapUpd]

/-- C4 witness: the amended statement at the concrete dead-one-shot state. -/
theorem dead_oneshot_drops_payload_keeps_subscription_w :
    (∃ s', stepFrame stateDeadPending1 (IBFrame.PriceTick 1 TickType.Bid 100 (some 1)) = some s' ∧
      s'.tickers 1 = some (TickerSender.make false) ∧
      s'.delivered = stateDeadPending1.delivered ∧ s'.requests 1 = none) ∧
    (∃ s2, stepFrame stateDeadPending1
        (IBFrame.OpenOrder { order_id := 1, payload := 0 } 0) = some s2 ∧
      s2.order_trackers 1 =
        some (OrderTrackerSender.make { order_id := 1, payload := 0 } 0 false) ∧
      s2.delivered = stateDeadPending1.delivered ∧ s2.requests 1 = none) :=
  dead_oneshot_drops_payload_keeps_subscription stateDeadPending1 1 TickType.Bid 100
    (some 1) { order_id := 1, payload := 0 } 0 (by decide) rfl

/-- C5 counterexample: create an order tracker under ID 2, drop its caller
receiver, then process a further OrderStatus frame for ID 2.  The failed
status publish only logs (ib_client.rs line 234); the tracker entry is
still in `order_trackers` — the table retains the dead subscription. -/
theorem dead_tracker_not_evicted_cex :
    (run initRouterState [RMsg.regWithID 2 true,
        RMsg.frame (IBFrame.OpenOrder { order_id := 2, payload := 0 } 0),
        RMsg.dropTracker 2,
        RMsg.frame (IBFrame.OrderStatus { order_id := 2, payload := 9 })]).map
      (fun s => (s.order_trackers 2).isSome) = some true := by
  decide

/-- C5 amended: eviction on a dead receiver is asymmetric.  A ticker whose
receiver is dropped is removed from `tickers` by the next bid/ask/last tick
publish for its ID; an order tracker whose receiver is dropped is never
removed — a further OrderStatus frame for its ID leaves the entry in
`order_trackers` unchanged. -/
theorem dead_receiver_eviction_policy
    (s : RouterState) (i j : ReqId) (t : TickerSender) (tr : OrderTrackerSender)
    (kind : TickType) (price : Int) (size : Option Int) (st : OrderStatus)
    (ht : s.tickers i = some t) (htdead : t.alive = false)
    (hnp : s.requests i = none) (hk : priceKindHandled kind = true)
    (htr : s.order_trackers j = some tr) (htrdead : tr.alive = false)
    (hst : st.order_id = j) :
    (∃ s', stepFrame s (IBFrame.PriceTick i kind price size) = some s' ∧
      s'.tickers i = none) ∧
    (∃ s2, stepFrame s (IBFrame.OrderStatus st) = some s2 ∧
      s2.order_trackers j = some tr) := by
  constructor
  · refine ⟨{ s with
        tickers := (priceTickPublish s.tickers i kind price size) }, ?_, ?_⟩
    · simp only [stepFrame, hnp]
    · cases kind <;> simp [priceKindHandled] at hk <;>
        simp [priceTickPublish, ht, htdead, mapUpd]
  · refine ⟨s, ?_, htr⟩
    · simp only [stepFrame, hst, htr, htrdead, Bool.false_eq_true, if_false]

/-- C5 witness: the amended statement at the concrete dead-handles state. -/
theorem dead_receiver_eviction_policy_w :
    (∃ s', stepFrame stateDeadHandles (IBFrame.PriceTick 1 TickType.Bid 100 none) = some s' ∧
      s'.tickers 1 = none) ∧
    (∃ s2, stepFrame stateDeadHandles
        (IBFrame.OrderStatus { order_id := 2, payload := 9 }) = some s2 ∧
      s2.order_trackers 2 =
        some (OrderTrackerSender.make { order_id := 2, payload := 0 } 0 false)) :=
  dead_receiver_eviction_policy stateDeadHandles 1 2 (TickerSender.make false)
    (OrderTrackerSender.make { order_id := 2, payload := 0 } 0 false)
    TickType.Bid 100 none { order_id := 2, payload := 9 }
    (by decide) rfl (by decide) rfl (by decide) rfl rfl

/-- C6: the claim (and the spec's stated intent) is that an empty
extra-tick list encodes as one bare null field without failing; with
`Some(vec![])` the loop bound `add_data.len()-1` underflows `usize` and the
encoding panics (`none`), so req_market_data never reaches its channels.
The `None` path does emit the bare null field. -/
theorem empty_tick_list_encoding_panics :
    encodeGenericTickList (some []) = none ∧
    encodeGenericTickList none = some nullByte ∧
    req_market_data_send (connectClientState 0) emptyField false false
      (some []) true = none := by
  exact ⟨rfl, rfl, rfl⟩

/-- C9 counterexample: req_historical_data with the registration channel
disconnected (crossbeam send fails) ignores the failed send — the line has
no `?` — and still enqueues the encoded request bytes: the trace has a
write event and no registration event. -/
theorem historical_data_sends_without_registration_cex :
    (req_historical_data_send (connectClientState 0) emptyField emptyField emptyField
        emptyField emptyField true false).events.map FEvent.isRegister = [false] ∧
    (req_historical_data_send (connectClientState 0) emptyField emptyField emptyField
        emptyField emptyField true false).events.map FEvent.isSendBytes = [true] := by
  exact ⟨rfl, rfl⟩

/-- C9 amended: req_contract_details, place_order and req_market_data
enqueue the registration strictly before the request bytes and, through the
`?` on `req_tx.send`, never write the bytes when registration failed;
req_historical_data also registers first, but when the registration channel
send fails it drops the Result and writes the bytes anyway, so its send is
preceded by a registration exactly when the registration succeeded. -/
theorem registration_before_send_policy
    (c : IBClientState) (fields : String)
    (snapshot regulatory use_rth reg_ok : Bool)
    (additional_data : Option (List GenericTickType)) :
    sendsCovered false (req_contract_details_send c fields reg_ok).events = true ∧
    sendsCovered false (place_order_send c fields reg_ok).events = true ∧
    Option.all (fun o => sendsCovered false o.events)
      (req_market_data_send c fields snapshot regulatory additional_data reg_ok) = true ∧
    sendsCovered false
      (req_historical_data_send c fields fields fields fields fields
        use_rth reg_ok).events = reg_ok := by
  refine ⟨?_, ?_, ?_, ?_⟩
  · cases reg_ok <;> simp [req_contract_details_send, get_next_req_id, sendsCovered]
  · cases reg_ok <;> simp [place_order_send, get_next_order_id, sendsCovered]
  · rcases h : encodeGenericTickList additional_data with _ | tick_list <;>
      cases reg_ok <;>
      simp [req_market_data_send, get_next_req_id, h, Option.all, sendsCovered]
  · cases reg_ok <;>
      simp [req_historical_data_send, get_next_req_id, sendsCovered]

/-- Reading an updated map at the updated key. -/
theorem mapUpd_self {κ α : Type} [DecidableEq κ] (m : κ → Option α) (k : κ)
    (v : Option α) : mapUpd m k v k = v := by
  simp [mapUpd]

/-- Reading an updated map at another key. -/
theorem mapUpd_other {κ α : Type} [DecidableEq κ] (m : κ → Option α) (k j : κ)
    (v : Option α) (h : j ≠ k) : mapUpd m k v j = m j := by
  simp [mapUpd, h]

/-- C7: an Execution for an order with a live tracker records
`exec_id → order_id` in `executions_cache` and lands in that tracker's
executions queue; the CommissionReport carrying the same exec_id is then
routed to the same tracker's commission queue, and afterwards the exec_id
entry is gone from `executions_cache`.  An Execution for an order with no
tracker, and the CommissionReport for its exec_id, are both dropped with
the state — `executions_cache` included — completely unchanged. -/
theorem commission_report_routing
    (s s0 : RouterState) (e : Execution) (r : CommissionReport)
    (tr : OrderTrackerSender)
    (hr : r.exec_id = e.exec_id)
    (htr : s.order_trackers e.order_id = some tr) (halive : tr.alive = true)
    (ho : s0.order_trackers e.order_id = none)
    (hc : s0.executions_cache e.exec_id = none) :
    (∃ s1 s2,
      stepFrame s (IBFrame.Execution e) = some s1 ∧
      s1.executions_cache e.exec_id = some e.order_id ∧
      stepFrame s1 (IBFrame.CommissionReport r) = some s2 ∧
      (∃ tr2, s2.order_trackers e.order_id = some tr2 ∧
        tr2.executions = tr.executions ++ [e] ∧
        tr2.commission_reports = tr.commission_reports ++ [r]) ∧
      s2.executions_cache e.exec_id = none) ∧
    stepFrame s0 (IBFrame.Execution e) = some s0 ∧
    stepFrame s0 (IBFrame.CommissionReport r) = some s0 := by
  refine ⟨?_, ?_, ?_⟩
  · refine ⟨{ s with
        executions_cache := (mapUpd s.executions_cache e.exec_id (some e.order_id)),
        order_trackers := (mapUpd s.order_trackers e.order_id
          (some { tr with executions := tr.executions ++ [e] })) },
      { s with
        executions_cache := (mapUpd (mapUpd s.executions_cache e.exec_id
          (some e.order_id)) e.exec_id none),
        order_trackers := (mapUpd (mapUpd s.order_trackers e.order_id
            (some { tr with executions := tr.executions ++ [e] })) e.order_id
          (some { tr with executions := tr.executions ++ [e], commission_reports := tr.commission_reports ++ [r] })) },
      ?_, ?_, ?_, ?_, ?_⟩
    · simp [stepFrame, htr, halive]
    · simp [mapUpd_self]
    · simp [stepFrame, hr, mapUpd_self, halive]
    · exact ⟨{ tr with executions := tr.executions ++ [e], commission_reports := tr.commission_reports ++ [r] },
        by simp [mapUpd_self], rfl, rfl⟩
    · simp [mapUpd_self]
  · simp [stepFrame, ho]
  · simp [stepFrame, hr, hc]

/-- C7 witness: the routing statement at a concrete single-tracker state
and the orphan statement at the empty connect-time state. -/
theorem commission_report_routing_w :
    (∃ s1 s2,
      stepFrame stateTracker10
        (IBFrame.Execution { order_id := 10, exec_id := 42, payload := 0 }) = some s1 ∧
      s1.executions_cache 42 = some 10 ∧
      stepFrame s1 (IBFrame.CommissionReport { exec_id := 42, payload := 5 }) = some s2 ∧
      (∃ tr2, s2.order_trackers 10 = some tr2 ∧
        tr2.executions =
          (OrderTrackerSender.make { order_id := 10, payload := 0 } 0 true).executions ++
            [{ order_id := 10, exec_id := 42, payload := 0 }] ∧
        tr2.commission_reports =
          (OrderTrackerSender.make { order_id := 10, payload := 0 } 0 true).commission_reports ++
            [{ exec_id := 42, payload := 5 }]) ∧
      s2.executions_cache 42 = none) ∧
    stepFrame initRouterState
      (IBFrame.Execution { order_id := 10, exec_id := 42, payload := 0 }) =
        some initRouterState ∧
    stepFrame initRouterState
      (IBFrame.CommissionReport { exec_id := 42, payload := 5 }) =
        some initRouterState :=
  commission_report_routing stateTracker10 initRouterState
    { order_id := 10, exec_id := 42, payload := 0 } { exec_id := 42, payload := 5 }
    (OrderTrackerSender.make { order_id := 10, payload := 0 } 0 true)
    rfl (by decide) rfl rfl rfl

/-- The IDs encoded by `k` successive place_order calls are the `k`
consecutive integers after the stored counter. -/
theorem placeOrders_ids (order_fields : String) :
    ∀ (k : Nat) (c : IBClientState),
      (placeOrders c order_fields k).1 = idsFrom (c.next_order_id + 1) k := by
  intro k
  induction k with
  | zero => intro c; rfl
  | succ k ih =>
      intro c
      simp only [placeOrders, place_order_send, get_next_order_id, if_true, idsFrom]
      rw [ih]

/-- Every member of `idsFrom start k` is at least `start`. -/
theorem idsFrom_mem_lower (x : Int) :
    ∀ (k : Nat) (start : Int), x ∈ idsFrom start k → start ≤ x := by
  intro k
  induction k with
  | zero => intro start h; simp [idsFrom] at h
  | succ k ih =>
      intro start h
      simp only [idsFrom, List.mem_cons] at h
      rcases h with rfl | h
      · exact le_refl x
      · have := ih (start + 1) h
        omega

/-- C10: after connect stores the server's unsolicited NextValidOrderID
value `n`, `k` place_order calls encode the consecutive order IDs
`n+1, …, n+k`; the value `n` itself is never used, and the first call
registers and sends under ID `n+1`. -/
theorem order_ids_consecutive_after_connect
    (n : Int) (order_fields : String) (k : Nat) :
    (placeOrders (connectClientState n) order_fields k).1 = idsFrom (n + 1) k ∧
    n ∉ (placeOrders (connectClientState n) order_fields k).1 ∧
    (place_order_send (connectClientState n) order_fields true).events =
      [FEvent.register (n + 1),
       FEvent.sendBytes (n + 1)
         (Outgoing.PlaceOrder ++ encodeInt (n + 1) ++ order_fields)] := by
  have h1 : (placeOrders (connectClientState n) order_fields k).1 = idsFrom (n + 1) k := by
    simpa [connectClientState] using placeOrders_ids order_fields k (connectClientState n)
  refine ⟨h1, ?_, ?_⟩
  · rw [h1]
    intro hmem
    have := idsFrom_mem_lower n k (n + 1) hmem
    omega
  · simp [place_order_send, get_next_order_id, connectClientState]

/-- Removing a key from a map cannot make any lookup defined. -/
theorem mapUpd_none_isSome {κ α : Type} [DecidableEq κ] (m : κ → Option α)
    (k j : κ) (h : ((mapUpd m k none) j).isSome = true) : (m j).isSome = true := by
  by_cases hjk : j = k
  · simp [mapUpd, hjk] at h
  · rwa [mapUpd_other m k j none hjk] at h

/-- A sink-creating input requires a pending request under its ID. -/
theorem createsSink_isSome (i : ReqId) (s : RouterState) (m : RMsg)
    (hc : createsSink i s m = true) : (s.requests i).isSome = true := by
  cases m with
  | regOrderID alive => simp [createsSink, createsTicker, createsTracker] at hc
  | regWithID id alive => simp [createsSink, createsTicker, createsTracker] at hc
  | dropTicker id => simp [createsSink, createsTicker, createsTracker] at hc
  | dropTracker id => simp [createsSink, createsTicker, createsTracker] at hc
  | frame f =>
      cases f <;> simp [createsSink, createsTicker, createsTracker] at hc <;>
        exact hc.2

/-- A sink-creating input is never a registration. -/
theorem createsSink_registersFor (i : ReqId) (s : RouterState) (m : RMsg)
    (hc : createsSink i s m = true) : registersFor i m = false := by
  cases m with
  | regWithID id alive => simp [createsSink, createsTicker, createsTracker] at hc
  | regOrderID alive => rfl
  | frame f => rfl
  | dropTicker id => rfl
  | dropTracker id => rfl

/-- Processing a sink-creating input removes the pending entry for its ID
(the `requests.remove_entry` in every creation branch). -/
theorem step_createsSink_clears_pending (s s' : RouterState) (m : RMsg)
    (i : ReqId) (h : step s m = some s') (hc : createsSink i s m = true) :
    s'.requests i = none := by
  cases m with
  | regOrderID alive => simp [createsSink, createsTicker, createsTracker] at hc
  | regWithID id alive => simp [createsSink, createsTicker, createsTracker] at hc
  | dropTicker id => simp [createsSink, createsTicker, createsTracker] at hc
  | dropTracker id => simp [createsSink, createsTicker, createsTracker] at hc
  | frame f =>
      cases f <;> simp only [createsSink, createsTicker, createsTracker,
        Bool.or_eq_true, Bool.and_eq_true, beq_iff_eq, Bool.false_eq_true,
        or_false, false_or, or_self] at hc
      case OpenOrder order order_state =>
        obtain ⟨hid, hsome⟩ := hc
        subst hid
        obtain ⟨p, hp⟩ := Option.isSome_iff_exists.mp hsome
        simp only [step, stepFrame, hp] at h
        injection h with h
        subst h
        exact mapUpd_self _ _ _
      case PriceTick id kind price size =>
        obtain ⟨hid, hsome⟩ := hc
        subst hid
        obtain ⟨p, hp⟩ := Option.isSome_iff_exists.mp hsome
        simp only [step, stepFrame, hp] at h
        split at h <;> (injection h with h; subst h; exact mapUpd_self _ _ _)
      case SizeTick id kind size =>
        obtain ⟨hid, hsome⟩ := hc
        subst hid
        obtain ⟨p, hp⟩ := Option.isSome_iff_exists.mp hsome
        simp only [step, stepFrame, hp] at h
        split at h <;> (injection h with h; subst h; exact mapUpd_self _ _ _)
      case GenericTick id kind val =>
        obtain ⟨hid, hsome⟩ := hc
        subst hid
        obtain ⟨p, hp⟩ := Option.isSome_iff_exists.mp hsome
        simp only [step, stepFrame, hp] at h
        split at h <;> (injection h with h; subst h; exact mapUpd_self _ _ _)

/-- No router input other than a registration for `i` can make a pending
entry under `i` appear: pending entries only shrink. -/
theorem step_requests_isSome_mono (s s' : RouterState) (m : RMsg) (i : ReqId)
    (h : step s m = some s') (hreg : registersFor i m = false)
    (h2 : (s'.requests i).isSome = true) : (s.requests i).isSome = true := by
  cases m with
  | regOrderID alive =>
      simp only [step] at h
      injection h with h
      subst h
      exact h2
  | regWithID id alive =>
      have hne : i ≠ id := by
        simp only [registersFor, beq_eq_false_iff_ne, ne_eq] at hreg
        exact fun hii => hreg (hii.symm)
      have hs' : s'.requests i = s.requests i := by
        simp only [step] at h
        injection h with h
        subst h
        exact mapUpd_other _ _ _ _ hne
      rwa [hs'] at h2
  | dropTicker id =>
      simp only [step] at h
      split at h <;> (injection h with h; subst h; exact h2)
  | dropTracker id =>
      simp only [step] at h
      split at h <;> (injection h with h; subst h; exact h2)
  | frame f =>
      cases f <;> simp only [step, stepFrame] at h <;>
        repeat' split at h
      all_goals
        first
          | exact Option.noConfusion h
          | (injection h with h; subst h;
             first
               | exact h2
               | exact mapUpd_none_isSome _ _ _ h2)

/-- Pointwise-smaller creation predicates are counted fewer times. -/
theorem countSteps_mono (p q : RouterState → RMsg → Bool)
    (hpq : ∀ s m, p s m = true → q s m = true) :
    ∀ (ms : List RMsg) (s : RouterState),
      countSteps p s ms ≤ countSteps q s ms := by
  intro ms
  induction ms with
  | nil => intro s; exact le_refl 0
  | cons m rest ih =>
      intro s
      have hif : (if p s m then 1 else 0) ≤ (if q s m then (1 : Nat) else 0) := by
        by_cases hp : p s m = true
        · simp [hp, hpq s m hp]
        · simp [hp]
      simp only [countSteps]
      cases hstep : step s m with
      | none => simp only [hstep]; omega
      | some s' =>
          have hrest := ih s'
          simp only [hstep]
          omega

/-- One input changes the creation count plus the pending indicator for `i`
by at most the number of registrations for `i` it carries. -/
theorem step_creation_bound (s s' : RouterState) (m : RMsg) (i : ReqId)
    (h : step s m = some s') :
    (if createsSink i s m then 1 else 0) + pendCount s' i ≤
      (if registersFor i m then 1 else 0) + pendCount s i := by
  by_cases hc : createsSink i s m = true
  · have h1 := step_createsSink_clears_pending s s' m i h hc
    have h2 := createsSink_isSome i s m hc
    have h3 := createsSink_registersFor i s m hc
    simp [hc, h3, pendCount, h1, h2]
  · have hc' : createsSink i s m = false := by
      revert hc; cases createsSink i s m <;> simp
    by_cases hr : registersFor i m = true
    · have hle : pendCount s' i ≤ 1 := by
        unfold pendCount; split <;> omega
      simp only [hc', hr, Bool.false_eq_true, if_false, if_true]
      omega
    · have hr' : registersFor i m = false := by
        revert hr; cases registersFor i m <;> simp
      have hmono := step_requests_isSome_mono s s' m i h hr'
      simp only [hc', hr', Bool.false_eq_true, if_false]
      by_cases hs : (s'.requests i).isSome = true
      · have hss := hmono hs
        simp [pendCount, hs, hss]
      · have hs' : (s'.requests i).isSome = false := by
          revert hs; cases (s'.requests i).isSome <;> simp
        simp [pendCount, hs']

/-- Along any run, the number of sink creations under `i` is bounded by the
number of registrations for `i` plus the initially pending indicator. -/
theorem countSteps_le_registrations (i : ReqId) :
    ∀ (ms : List RMsg) (s : RouterState),
      countSteps (createsSink i) s ms ≤ countRegistrations i ms + pendCount s i := by
  intro ms
  induction ms with
  | nil => intro s; simp [countSteps]
  | cons m rest ih =>
      intro s
      have hfil : countRegistrations i (m :: rest) =
          (if registersFor i m then 1 else 0) + countRegistrations i rest := by
        unfold countRegistrations
        rw [List.filter_cons]
        cases hr : registersFor i m <;> simp [List.length_cons, Nat.add_comm]
      rw [hfil]
      simp only [countSteps]
      cases hstep : step s m with
      | none =>
          simp only [hstep]
          by_cases hc : createsSink i s m = true
          · have h2 := createsSink_isSome i s m hc
            have hp1 : pendCount s i = 1 := by simp [pendCount, h2]
            simp only [hc, if_true]
            omega
          · have hc' : createsSink i s m = false := by
              revert hc; cases createsSink i s m <;> simp
            simp only [hc', Bool.false_eq_true, if_false]
            omega
      | some s' =>
          have hb := step_creation_bound s s' m i hstep
          have ht := ih s'
          simp only [hstep]
          omega

/-- C8: across any inbound trace in which the façade registers the ID `i`
at most once, the router builds at most one Ticker and at most one
OrderTracker under `i`: only the first tick/OpenOrder frame that finds the
pending entry creates a sink (and removes the entry); later frames for `i`
take the update paths. -/
theorem sink_creation_at_most_once (ms : List RMsg) (i : ReqId)
    (hreg : countRegistrations i ms ≤ 1) :
    countSteps (createsTicker i) initRouterState ms ≤ 1 ∧
    countSteps (createsTracker i) initRouterState ms ≤ 1 := by
  have hm1 : ∀ s m, createsTicker i s m = true → createsSink i s m = true := by
    intro s m h; simp [createsSink, h]
  have hm2 : ∀ s m, createsTracker i s m = true → createsSink i s m = true := by
    intro s m h; simp [createsSink, h]
  have hb := countSteps_le_registrations i ms initRouterState
  have hp0 : pendCount initRouterState i = 0 := rfl
  have ht1 := countSteps_mono (createsTicker i) (createsSink i) hm1 ms initRouterState
  have ht2 := countSteps_mono (createsTracker i) (createsSink i) hm2 ms initRouterState
  constructor <;> omega

/-- C8 witness: a concrete trace registering ID 1 once and then receiving
three tick frames for it. -/
theorem sink_creation_at_most_once_w :
    countRegistrations 1 traceTicks1 ≤ 1 ∧
    countSteps (createsTicker 1) initRouterState traceTicks1 ≤ 1 ∧
    countSteps (createsTracker 1) initRouterState traceTicks1 ≤ 1 :=
  ⟨by decide, (sink_creation_at_most_once traceTicks1 1 (by decide)).1,
    (sink_creation_at_most_once traceTicks1 1 (by decide)).2⟩

end RustIbApi
